import Mathlib

/-!
Verification of the GPU resource lifecycle and frame-orchestration layer of
the ascii_dungeon renderer, as a shallow embedding of the C++ sources:

  src/renderer/buffer.cpp        (GPU buffer ownership)
  src/renderer/acceleration.cpp  (BLAS / TLAS manager)
  src/renderer/rt_pipeline.cpp   (shader binding table, growable buffers,
                                  storage image)
  src/core/vulkan_context.cpp    (frame loop, swapchain recreation)
  src/main.cpp                   (light-count reporting handlers)

Device-side behaviour (allocation results, size queries, Vulkan result
codes, window dimensions) is supplied through explicit oracle records;
every modelled operation returns its new state together with a trace of
the device commands it issued, so that "no device work" and ordering
properties are observable.  GPU handles are natural numbers with 0 playing
the role of VK_NULL_HANDLE; fresh handles are drawn from a counter held in
the state.  Floating-point geometry data is modelled over the rationals.
-/

namespace AsciiDungeon

/-! ## GPU Buffer (src/renderer/buffer.cpp, buffer.hpp)

A Buffer owns one VkBuffer handle plus one VMA allocation.  The fields
mirror the members of class Buffer: m_ctx (null for a default-constructed
or moved-from buffer), m_buffer, m_allocation, m_size and m_mapped.
The device address returned by vkGetBufferDeviceAddress is stable per
allocation and modelled by the addr field, fixed at creation. -/

structure Buffer where
  ctx : Bool          -- m_ctx != nullptr
  handle : Nat        -- m_buffer     (0 = VK_NULL_HANDLE)
  allocation : Nat    -- m_allocation (0 = VK_NULL_HANDLE)
  size : Nat          -- m_size, in bytes
  mapped : Bool       -- m_mapped != nullptr
  addr : Nat          -- value vkGetBufferDeviceAddress reports for m_buffer
deriving DecidableEq

/-- Default-constructed Buffer: all members null / zero. -/
def Buffer.null : Buffer :=
  { ctx := false, handle := 0, allocation := 0, size := 0, mapped := false, addr := 0 }

/-- Host-visible device memory operations a Buffer issues. -/
inductive BufEffect where
  | unmapMemory (allocation : Nat)                  -- vmaUnmapMemory
  | destroyBuffer (handle : Nat) (allocation : Nat) -- vmaDestroyBuffer
  | mapMemory (allocation : Nat)                    -- vmaMapMemory
deriving DecidableEq

/-- Buffer::unmap(): if mapped, vmaUnmapMemory and clear m_mapped. -/
def Buffer.unmap (b : Buffer) : Buffer × List BufEffect :=
  if b.mapped then ({ b with mapped := false }, [.unmapMemory b.allocation])
  else (b, [])

/-- Buffer::destroy(): guarded by m_buffer != VK_NULL_HANDLE && m_ctx;
first unmaps if mapped, then vmaDestroyBuffer, then nulls handle and
allocation. -/
def Buffer.destroy (b : Buffer) : Buffer × List BufEffect :=
  if b.handle ≠ 0 ∧ b.ctx then
    let u := if b.mapped then b.unmap else (b, [])
    ({ u.1 with handle := 0, allocation := 0 },
      u.2 ++ [.destroyBuffer b.handle b.allocation])
  else (b, [])

/-- Buffer move constructor: the new buffer steals every member, the
moved-from buffer is left with null context, handle and allocation.
Returns (new buffer, moved-from buffer). -/
def Buffer.moveCtor (other : Buffer) : Buffer × Buffer :=
  (other,
   { ctx := false, handle := 0, allocation := 0, size := 0,
     mapped := false, addr := other.addr })

/-- Buffer move assignment for distinct objects (the this != &other
branch): destroy the destination's current allocation, then steal the
source's members and null the source.  Returns
(new destination, moved-from source, effects of destroying the old
destination). -/
def Buffer.moveAssign (dst other : Buffer) : Buffer × Buffer × List BufEffect :=
  let d := dst.destroy
  (other,
   { ctx := false, handle := 0, allocation := 0, size := 0,
     mapped := false, addr := other.addr },
   d.2)

/-- Number of vmaDestroyBuffer calls in a trace. -/
def freeCount (effs : List BufEffect) : Nat :=
  effs.countP (fun e => match e with | .destroyBuffer _ _ => true | _ => false)

/-! ## Acceleration structures (src/renderer/acceleration.cpp, .hpp)

Geometry coordinates are rationals standing in for the 32-bit floats of
the source.  The 4x4 transforms are functions Fin 4 → Fin 4 → ℚ.  Device
size queries and the success of vkCreateAccelerationStructureKHR come
from an oracle record. -/

abbrev Vec3 := ℚ × ℚ × ℚ
abbrev Mat4 := Fin 4 → Fin 4 → ℚ

/-- struct BLAS: handle, backing buffer, cached device address. -/
structure BLAS where
  handle : Nat
  buffer : Buffer
  device_address : Nat
deriving DecidableEq

/-- struct TLAS: handle, backing buffer, instance buffer, instance count. -/
structure TLAS where
  handle : Nat
  buffer : Buffer
  instance_buffer : Buffer
  instance_count : Nat
deriving DecidableEq

def TLAS.null : TLAS :=
  { handle := 0, buffer := Buffer.null, instance_buffer := Buffer.null,
    instance_count := 0 }

/-- struct Instance: host-side TLAS instance description. -/
structure Instance where
  transform : Mat4
  custom_index : Nat
  mask : Nat
  sbt_offset : Nat
  flags : Nat
  blas_index : Nat

/-- GPU-native instance record (VkAccelerationStructureInstanceKHR):
row-major 3x4 transform (the first three rows of the transposed column-
major glm matrix) plus the referenced BLAS device address. -/
structure VkInstanceRec where
  transform3x4 : Fin 3 → Fin 4 → ℚ
  customIndex : Nat
  maskBits : Nat
  sbtRecordOffset : Nat
  instFlags : Nat
  accelerationStructureReference : Nat

/-- sizeof(VkAccelerationStructureInstanceKHR) in bytes. -/
def sizeofVkInstance : Nat := 64

/-- sizeof(glm::vec3) = 12, sizeof(uint32_t) = 4. -/
def sizeofVec3 : Nat := 12
def sizeofU32 : Nat := 4

/-- Device answers consumed by acceleration-structure builds. -/
structure AccelOracle where
  blasAsSize : Nat       -- size query result for a BLAS
  blasScratchSize : Nat
  tlasAsSize : Nat       -- size query result for the TLAS
  tlasScratchSize : Nat
  createOk : Bool        -- vkCreateAccelerationStructureKHR succeeds

/-- Commands the manager issues to the device (plus its log lines). -/
inductive AEffect where
  | logWarn
  | logInfo
  | waitIdle                                   -- m_ctx.wait_idle()
  | destroyAS (handle : Nat)                   -- vkDestroyAccelerationStructureKHR
  | createBuffer (handle : Nat) (size : Nat)
  | uploadBytes (bufferHandle : Nat) (bytes : Nat)
  | createAS (handle : Nat)                    -- vkCreateAccelerationStructureKHR
  | buildAS (handle : Nat)                     -- one-shot vkCmdBuildAccelerationStructuresKHR
deriving DecidableEq

/-- Whether an effect is device work (anything but a log line). -/
def AEffect.isDeviceWork : AEffect → Bool
  | .logWarn => false
  | .logInfo => false
  | _ => true

/-- AccelerationStructureManager state: m_blas_list, m_tlas, plus the
fresh-handle counter standing in for the device's object allocator. -/
structure AccelState where
  blas_list : List BLAS
  tlas : TLAS
  nextId : Nat
deriving DecidableEq

/-- Allocate a fresh buffer of the given size (the Buffer constructor):
handle, allocation and device address are fresh nonzero ids. -/
def AccelState.freshBuffer (st : AccelState) (size : Nat) :
    AccelState × Buffer × List AEffect :=
  let h := st.nextId + 1
  ({ st with nextId := st.nextId + 1 },
   { ctx := true, handle := h, allocation := h, size := size,
     mapped := false, addr := h },
   [.createBuffer h size])

/-- create_blas_internal: upload vertex/index buffers, query sizes,
allocate the AS buffer and scratch, create the AS object, record a
one-shot build and wait, then cache the device address. -/
def AccelState.create_blas_internal (st : AccelState) (dev : AccelOracle)
    (vertices : List Vec3) (indices : List Nat) :
    Except String (AccelState × BLAS × List AEffect) :=
  let vsize := vertices.length * sizeofVec3
  let s1 := st.freshBuffer vsize
  let isize := indices.length * sizeofU32
  let s2 := s1.1.freshBuffer isize
  let s3 := s2.1.freshBuffer dev.blasAsSize          -- blas.buffer
  if dev.createOk then
    let asHandle := s3.1.nextId + 1
    let s4 : AccelState := { s3.1 with nextId := s3.1.nextId + 1 }
    let s5 := s4.freshBuffer dev.blasScratchSize     -- scratch buffer
    let devAddr := asHandle                          -- address cached from the device
    .ok ({ s5.1 with nextId := s5.1.nextId },
         { handle := asHandle, buffer := s3.2.1, device_address := devAddr },
         s1.2.2 ++ [.uploadBytes s1.2.1.handle vsize] ++
         s2.2.2 ++ [.uploadBytes s2.2.1.handle isize] ++
         s3.2.2 ++ [.createAS asHandle] ++ s5.2.2 ++
         [.buildAS asHandle, .logInfo])
  else .error "Failed to create BLAS"

/-- create_blas: remembers the current list length as the returned
handle, then appends the freshly built BLAS. -/
def AccelState.create_blas (st : AccelState) (dev : AccelOracle)
    (vertices : List Vec3) (indices : List Nat) :
    Except String (AccelState × Nat × List AEffect) :=
  let index := st.blas_list.length
  match st.create_blas_internal dev vertices indices with
  | .error e => .error e
  | .ok (st1, blas, effs) =>
      .ok ({ st1 with blas_list := st.blas_list ++ [blas] }, index, effs)

/-- Unit cube vertices from create_cube_blas (floats ±0.5). -/
def cubeVertices : List Vec3 :=
  [(-1/2, -1/2,  1/2), (1/2, -1/2,  1/2), (1/2, 1/2,  1/2), (-1/2, 1/2,  1/2),
   (-1/2, -1/2, -1/2), (1/2, -1/2, -1/2), (1/2, 1/2, -1/2), (-1/2, 1/2, -1/2)]

/-- Cube index list: 12 triangles, two per face. -/
def cubeIndices : List Nat :=
  [0, 1, 2, 2, 3, 0,
   1, 5, 6, 6, 2, 1,
   5, 4, 7, 7, 6, 5,
   4, 0, 3, 3, 7, 4,
   3, 2, 6, 6, 7, 3,
   4, 5, 1, 1, 0, 4]

/-- create_cube_blas delegates to create_blas with the cube geometry. -/
def AccelState.create_cube_blas (st : AccelState) (dev : AccelOracle) :
    Except String (AccelState × Nat × List AEffect) :=
  st.create_blas dev cubeVertices cubeIndices

/-- Rotation about Z by (cos, sin) = (c, s) followed by translation, as in
the rotate_and_translate lambda of create_letter_a_blas. -/
def rotateTranslate (c s : ℚ) (center : Vec3) (v : Vec3) : Vec3 :=
  (v.1 * c - v.2.1 * s + center.1,
   v.1 * s + v.2.1 * c + center.2.1,
   v.2.2 + center.2.2)

/-- The six faces of a box of half-extents (hx, hy, hz), four corners
each, in the order front, back, right, left, top, bottom. -/
def boxFaces (hx hy hz : ℚ) : List (List Vec3) :=
  [[(-hx, -hy, hz), (hx, -hy, hz), (hx, hy, hz), (-hx, hy, hz)],
   [(hx, -hy, -hz), (-hx, -hy, -hz), (-hx, hy, -hz), (hx, hy, -hz)],
   [(hx, -hy, hz), (hx, -hy, -hz), (hx, hy, -hz), (hx, hy, hz)],
   [(-hx, -hy, -hz), (-hx, -hy, hz), (-hx, hy, hz), (-hx, hy, -hz)],
   [(-hx, hy, hz), (hx, hy, hz), (hx, hy, -hz), (-hx, hy, -hz)],
   [(-hx, -hy, -hz), (hx, -hy, -hz), (hx, -hy, hz), (-hx, -hy, hz)]]

/-- The add_box helper: appends 24 vertices (4 per face) and 36 indices
(two triangles per face) to the accumulated geometry.  cosF and sinF
stand in for std::cos and std::sin on the rotation angle. -/
def addBox (cosF sinF : ℚ → ℚ) (acc : List Vec3 × List Nat)
    (center size3 : Vec3) (rotZ : ℚ) : List Vec3 × List Nat :=
  let c := cosF rotZ
  let s := sinF rotZ
  let half : Vec3 := (size3.1 / 2, size3.2.1 / 2, size3.2.2 / 2)
  (boxFaces half.1 half.2.1 half.2.2).foldl
    (fun acc face =>
      let base := acc.1.length
      (acc.1 ++ face.map (rotateTranslate c s center),
       acc.2 ++ [base, base + 1, base + 2, base + 2, base + 3, base]))
    acc

/-- The extruded letter-A geometry: two angled legs, a crossbar and a top
cap, assembled by four add_box calls.  atan2F, cosF and sinF are oracles
for the float trigonometry of the source. -/
def letterAGeometry (atan2F : ℚ → ℚ → ℚ) (cosF sinF : ℚ → ℚ) :
    List Vec3 × List Nat :=
  let depth : ℚ := 1/5
  let leg_width : ℚ := 3/20
  let height : ℚ := 1
  let width : ℚ := 4/5
  let leg_angle := atan2F (width * (1/2)) height
  let leg_length := height / cosF leg_angle
  let g0 : List Vec3 × List Nat := ([], [])
  let g1 := addBox cosF sinF g0 (-(width * (11/50)), 0, 0)
              (leg_width, leg_length, depth) (-leg_angle)
  let g2 := addBox cosF sinF g1 (width * (11/50), 0, 0)
              (leg_width, leg_length, depth) leg_angle
  let g3 := addBox cosF sinF g2 (0, -(height * (3/25)), 0)
              (width * (19/50), leg_width * (9/10), depth) 0
  addBox cosF sinF g3 (0, height * (21/50), 0)
    (leg_width * (9/5), leg_width * (6/5), depth) 0

/-- create_letter_a_blas delegates to create_blas with the letter-A
geometry. -/
def AccelState.create_letter_a_blas (st : AccelState) (dev : AccelOracle)
    (atan2F : ℚ → ℚ → ℚ) (cosF sinF : ℚ → ℚ) :
    Except String (AccelState × Nat × List AEffect) :=
  st.create_blas dev (letterAGeometry atan2F cosF sinF).1
    (letterAGeometry atan2F cosF sinF).2

/-- Instance → VkAccelerationStructureInstanceKHR conversion from
build_tlas: transpose the transform, keep the first three rows, and look
up the referenced BLAS device address (unchecked vector indexing in the
source; out-of-range reads are modelled as address 0). -/
def AccelState.toVkInstance (st : AccelState) (inst : Instance) : VkInstanceRec :=
  { transform3x4 := fun r c => inst.transform c r.castSucc,
    customIndex := inst.custom_index,
    maskBits := inst.mask,
    sbtRecordOffset := inst.sbt_offset,
    instFlags := inst.flags,
    accelerationStructureReference :=
      ((st.blas_list.get? inst.blas_index).map (·.device_address)).getD 0 }

/-- build_tlas: an empty instance list logs a warning and returns at
once.  Otherwise the old TLAS (if any) is destroyed after a device-idle
wait, the converted instances are uploaded into a fresh instance buffer,
sizes are queried, the AS buffer and scratch are allocated, the TLAS
object is created and built through the synchronous single-time-command
path. -/
def AccelState.build_tlas (st : AccelState) (dev : AccelOracle)
    (instances : List Instance) :
    Except String (AccelState × List AEffect) :=
  if instances.isEmpty then
    .ok (st, [.logWarn])
  else
    let d :=
      if st.tlas.handle ≠ 0 then
        ({ st with tlas := { st.tlas with handle := 0 } },
         [AEffect.waitIdle, AEffect.destroyAS st.tlas.handle])
      else (st, [])
    let vkInstances := instances.map d.1.toVkInstance
    let instSize := vkInstances.length * sizeofVkInstance
    let s1 := d.1.freshBuffer instSize                 -- m_tlas.instance_buffer
    let st1 : AccelState :=
      { s1.1 with
        tlas := { s1.1.tlas with instance_buffer := s1.2.1, instance_count := instances.length } }
    let s2 := st1.freshBuffer dev.tlasAsSize           -- m_tlas.buffer
    let st2 : AccelState := { s2.1 with tlas := { s2.1.tlas with buffer := s2.2.1 } }
    if dev.createOk then
      let asHandle := st2.nextId + 1
      let st3 : AccelState :=
        { st2 with
          tlas := { st2.tlas with handle := asHandle }
          nextId := st2.nextId + 1 }
      let s4 := st3.freshBuffer dev.tlasScratchSize    -- scratch buffer
      .ok (s4.1,
           d.2 ++ s1.2.2 ++ [.uploadBytes s1.2.1.handle instSize] ++
           s2.2.2 ++ [.createAS asHandle] ++ s4.2.2 ++
           [.buildAS asHandle, .logInfo])
    else .error "Failed to create TLAS"

/-- get_blas / get_tlas accessors. -/
def AccelState.get_blas (st : AccelState) (index : Nat) : Option BLAS :=
  st.blas_list.get? index

def AccelState.tlas_handle (st : AccelState) : Nat := st.tlas.handle

/-! ## Ray-tracing pipeline (src/renderer/rt_pipeline.cpp, .hpp)

The growable per-instance / per-light storage buffers, the resizable
storage image, and the shader binding table layout computation. -/

abbrev Vec4 := ℚ × ℚ × ℚ × ℚ

/-- struct GlyphInstance: color + roughness, emission color + power. -/
structure GlyphInstance where
  color : Vec4
  emission : Vec4
deriving DecidableEq

/-- struct Light: position + radius, color + power. -/
structure Light where
  position : Vec4
  color : Vec4
deriving DecidableEq

/-- sizeof(GlyphInstance) = sizeof(Light) = two vec4s = 32 bytes. -/
def sizeofGlyphInstance : Nat := 32
def sizeofLight : Nat := 32

/-- Device commands issued by RTPipeline state updates. -/
inductive RTEffect where
  | waitIdle
  | destroyImageView (handle : Nat)
  | destroyImage (handle : Nat)
  | createImage (handle : Nat) (width height : Nat)
  | createImageView (handle : Nat)
  | writeStorageImageDescriptor (view : Nat)         -- binding 1
  | createBuffer (handle : Nat) (size : Nat)
  | writeBufferDescriptor (binding : Nat) (bufferHandle : Nat)
  | uploadBytes (bufferHandle : Nat) (bytes : Nat)
deriving DecidableEq

/-- RTPipeline state relevant to the growable buffers and the storage
image: m_instance_buffer / m_light_buffer with their element counts,
m_storage_image(_view) and its dimensions, plus the fresh-handle
counter. -/
structure RTPipelineState where
  instanceBuffer : Buffer
  instanceCount : Nat
  lightBuffer : Buffer
  lightCount : Nat
  storageImage : Nat       -- 0 = VK_NULL_HANDLE
  storageImageView : Nat   -- 0 = VK_NULL_HANDLE
  storageWidth : Nat
  storageHeight : Nat
  nextId : Nat
deriving DecidableEq

/-- RTPipeline::set_instances: empty input returns at once; otherwise if
the required byte size exceeds the current buffer size the buffer is
recreated at twice the required size and the binding-2 descriptor is
rewritten; finally the data is uploaded and the count recorded. -/
def RTPipelineState.set_instances (st : RTPipelineState)
    (instances : List GlyphInstance) : RTPipelineState × List RTEffect :=
  if instances.isEmpty then (st, [])
  else
    let required := instances.length * sizeofGlyphInstance
    let g :=
      if required > st.instanceBuffer.size then
        let h := st.nextId + 1
        let newBuf : Buffer :=
          { ctx := true, handle := h, allocation := h, size := required * 2,
            mapped := false, addr := h }
        ({ st with instanceBuffer := newBuf, nextId := st.nextId + 1 },
         [RTEffect.createBuffer h (required * 2),
          RTEffect.writeBufferDescriptor 2 h])
      else (st, [])
    ({ g.1 with instanceCount := instances.length },
     g.2 ++ [.uploadBytes g.1.instanceBuffer.handle required])

/-- RTPipeline::set_lights: identical shape, binding 3. -/
def RTPipelineState.set_lights (st : RTPipelineState)
    (lights : List Light) : RTPipelineState × List RTEffect :=
  if lights.isEmpty then (st, [])
  else
    let required := lights.length * sizeofLight
    let g :=
      if required > st.lightBuffer.size then
        let h := st.nextId + 1
        let newBuf : Buffer :=
          { ctx := true, handle := h, allocation := h, size := required * 2,
            mapped := false, addr := h }
        ({ st with lightBuffer := newBuf, nextId := st.nextId + 1 },
         [RTEffect.createBuffer h (required * 2),
          RTEffect.writeBufferDescriptor 3 h])
      else (st, [])
    ({ g.1 with lightCount := lights.length },
     g.2 ++ [.uploadBytes g.1.lightBuffer.handle required])

/-- A set_instances / set_lights call, for sequencing laws. -/
inductive RTCall where
  | setInstances (instances : List GlyphInstance)
  | setLights (lights : List Light)

/-- Run a sequence of set_instances / set_lights calls. -/
def RTPipelineState.runCalls (st : RTPipelineState) : List RTCall → RTPipelineState
  | [] => st
  | .setInstances xs :: rest => ((st.set_instances xs).1).runCalls rest
  | .setLights ys :: rest => ((st.set_lights ys).1).runCalls rest

/-- RTPipeline::resize_storage_image: returns at once when the requested
dimensions already match; otherwise waits for the device, destroys the
previous image view and image (when present), creates a replacement image
and view at exactly the requested size, records the new dimensions, and
rewrites the binding-1 storage-image descriptor. -/
def RTPipelineState.resize_storage_image (st : RTPipelineState)
    (width height : Nat) : RTPipelineState × List RTEffect :=
  if width = st.storageWidth ∧ height = st.storageHeight then (st, [])
  else
    let d1 :=
      if st.storageImageView ≠ 0 then
        ({ st with storageImageView := 0 },
         [RTEffect.destroyImageView st.storageImageView])
      else (st, [])
    let d2 :=
      if d1.1.storageImage ≠ 0 then
        ({ d1.1 with storageImage := 0 },
         [RTEffect.destroyImage d1.1.storageImage])
      else (d1.1, [])
    let img := d2.1.nextId + 1
    let view := d2.1.nextId + 2
    ({ d2.1 with
        storageImage := img
        storageImageView := view
        storageWidth := width
        storageHeight := height
        nextId := d2.1.nextId + 2 },
     [RTEffect.waitIdle] ++ d1.2 ++ d2.2 ++
     [RTEffect.createImage img width height, RTEffect.createImageView view,
      RTEffect.writeStorageImageDescriptor view])

/-! ### Shader binding table (RTPipeline::create_shader_binding_table)

The three alignment parameters come from
VkPhysicalDeviceRayTracingPipelinePropertiesKHR.  The aligned handle size
is computed with the 32-bit bit trick of the source,
(handle_size + handle_alignment - 1) & ~(handle_alignment - 1). -/

def UINT32_MOD : Nat := 2 ^ 32

/-- Bitwise NOT on a 32-bit value. -/
def not32 (x : Nat) : Nat := (UINT32_MOD - 1) - x % UINT32_MOD

structure RTProperties where
  shaderGroupHandleSize : Nat
  shaderGroupHandleAlignment : Nat
  shaderGroupBaseAlignment : Nat
deriving DecidableEq

/-- The SBT layout produced by create_shader_binding_table: region
offsets/strides/sizes relative to the start of the SBT buffer, and the
list of (byte offset, shader group index) handle copies performed into
the mapped buffer.  Groups: 0 = raygen, 1 = primary miss, 2 = shadow
miss, 3 = bounce miss, 4 = closest hit. -/
structure SBTLayout where
  raygenOffset : Nat
  raygenStride : Nat
  raygenSize : Nat
  missOffset : Nat
  missStride : Nat
  missSize : Nat
  hitOffset : Nat
  hitStride : Nat
  hitSize : Nat
  callableStride : Nat
  callableSize : Nat
  handleWrites : List (Nat × Nat)
  totalSize : Nat
deriving DecidableEq

def create_shader_binding_table (p : RTProperties) : SBTLayout :=
  let handle_size := p.shaderGroupHandleSize
  let handle_alignment := p.shaderGroupHandleAlignment
  let base_alignment := p.shaderGroupBaseAlignment
  let handle_size_aligned :=
    ((handle_size + handle_alignment - 1) % UINT32_MOD) &&&
      not32 (handle_alignment - 1)
  let raygen_size := base_alignment
  let miss_size := 3 * handle_size_aligned
  let miss_region_aligned :=
    ((miss_size + base_alignment - 1) / base_alignment) * base_alignment
  let hit_size := base_alignment
  { raygenOffset := 0
    raygenStride := raygen_size
    raygenSize := raygen_size
    missOffset := raygen_size
    missStride := handle_size_aligned
    missSize := miss_region_aligned
    hitOffset := raygen_size + miss_region_aligned
    hitStride := handle_size_aligned
    hitSize := hit_size
    callableStride := 0
    callableSize := 0
    handleWrites :=
      [(0, 0),
       (raygen_size, 1),
       (raygen_size + handle_size_aligned, 2),
       (raygen_size + 2 * handle_size_aligned, 3),
       (raygen_size + miss_region_aligned, 4)]
    totalSize := raygen_size + miss_region_aligned + hit_size }

/-- Round x up to the next multiple of a (the padding the spec describes). -/
def alignUp (x a : Nat) : Nat := ((x + a - 1) / a) * a

/-! ## Device/Frame context (src/core/vulkan_context.cpp, .hpp)

begin_frame / end_frame / recreate_swapchain with their helpers.  Vulkan
result codes and window dimensions come from a FrameOracle; throwing
std::runtime_error is modelled by Except.error, so a call that throws
produces no successor state. -/

def MAX_FRAMES_IN_FLIGHT : Nat := 2

/-- The VkResult values the frame loop inspects. -/
inductive VkResult where
  | success
  | suboptimalKHR
  | errorOutOfDateKHR
  | errorSurfaceLostKHR
  | otherError (code : Int)
deriving DecidableEq

structure SurfaceCaps where
  minImageCount : Nat
  currentExtentWidth : Nat
  currentExtentHeight : Nat
deriving DecidableEq

/-- Outcome of vkGetPhysicalDeviceSurfaceCapabilitiesKHR. -/
inductive CapsResult where
  | ok (caps : SurfaceCaps)
  | surfaceLost
  | otherError (code : Int)
deriving DecidableEq

/-- Device / window answers consumed during one frame-context call. -/
structure FrameOracle where
  acquireResult : VkResult       -- vkAcquireNextImageKHR
  acquiredImageIndex : Nat
  beginCmdOk : Bool              -- vkBeginCommandBuffer
  endCmdOk : Bool                -- vkEndCommandBuffer
  submitOk : Bool                -- vkQueueSubmit
  presentResult : VkResult       -- vkQueuePresentKHR
  windowSizes : Nat → Nat × Nat  -- window.width/height at the i-th poll-loop iteration
  capsResult : CapsResult        -- surface capabilities query in recreate_swapchain
  createCaps : SurfaceCaps       -- swapchain-support query inside create_swapchain
  swapchainCreateOk : Bool       -- vkCreateSwapchainKHR

/-- Commands issued by the frame context; slot indices identify the
per-frame fence / command buffer touched. -/
inductive VEffect where
  | waitForFences (slot : Nat)
  | acquireNextImage
  | resetFences (slot : Nat)
  | resetCommandBuffer (slot : Nat)
  | beginCommandBuffer (slot : Nat)
  | endCommandBuffer (slot : Nat)
  | queueSubmit (slot : Nat)
  | queuePresent
  | pollEvents
  | deviceWaitIdle
  | destroyImageView (handle : Nat)
  | destroySwapchain (handle : Nat)
  | destroySurface (handle : Nat)
  | createSurface (handle : Nat)
  | createSwapchain (handle : Nat) (width height : Nat)
  | createImageViews (count : Nat)
  | logWarn
  | logError
  | logInfo
deriving DecidableEq

/-- VulkanContext state for the frame loop: the current frame slot, the
acquired image index, swapchain / surface handles, the context's
m_framebuffer_resized flag, the window's resize flag (read by
was_resized and cleared by reset_resized_flag), and the fresh-handle
counter. -/
structure VCState where
  currentFrame : Nat
  imageIndex : Nat
  swapchain : Nat               -- 0 = VK_NULL_HANDLE
  swapchainExtent : Nat × Nat
  imageViews : List Nat
  surface : Nat                 -- 0 = VK_NULL_HANDLE
  framebufferResized : Bool
  windowResizedFlag : Bool
  nextId : Nat
deriving DecidableEq

/-- cleanup_swapchain: destroy every image view, clear the list, destroy
the swapchain when present and null its handle. -/
def VCState.cleanup_swapchain (st : VCState) : VCState × List VEffect :=
  let viewEffs := st.imageViews.map VEffect.destroyImageView
  if st.swapchain ≠ 0 then
    ({ st with imageViews := [], swapchain := 0 },
     viewEffs ++ [.destroySwapchain st.swapchain])
  else
    ({ st with imageViews := [] }, viewEffs)

/-- recreate_surface: destroy the old surface when present, then create a
fresh one through the window collaborator. -/
def VCState.recreate_surface (st : VCState) : VCState × List VEffect :=
  let d :=
    if st.surface ≠ 0 then
      ({ st with surface := 0 }, [VEffect.destroySurface st.surface])
    else (st, [])
  ({ d.1 with surface := d.1.nextId + 1, nextId := d.1.nextId + 1 },
   d.2 ++ [.createSurface (d.1.nextId + 1)])

/-- create_swapchain: re-queries swapchain support, picks an extent from
the reported capabilities (format / present-mode / extent clamping
elided), creates the swapchain (throwing on failure) and fetches the
image list; image count is minImageCount + 1 as in the source. -/
def VCState.create_swapchain (st : VCState) (o : FrameOracle) :
    Except String (VCState × List VEffect) :=
  if o.swapchainCreateOk then
    let h := st.nextId + 1
    let w := o.createCaps.currentExtentWidth
    let ht := o.createCaps.currentExtentHeight
    .ok ({ st with swapchain := h, swapchainExtent := (w, ht), nextId := st.nextId + 1 },
         [.createSwapchain h w ht, .logInfo])
  else .error "Failed to create swapchain"

/-- create_image_views: one view per swapchain image. -/
def VCState.create_image_views (st : VCState) (o : FrameOracle) :
    VCState × List VEffect :=
  let count := o.createCaps.minImageCount + 1
  let views := (List.range count).map (fun i => st.nextId + 1 + i)
  ({ st with imageViews := views, nextId := st.nextId + count },
   [.createImageViews count])

/-- The bounded zero-size poll loop at the top of recreate_swapchain:
read the window dimensions; while either is zero, poll events and retry,
giving up once 100 retries are exhausted (the ++attempts > 100 check).
Returns the dimensions read on success, none on give-up, together with
the pollEvents trace. -/
def pollWindowSize (sizes : Nat → Nat × Nat) :
    Nat → Nat → Option (Nat × Nat) × List VEffect
  | _, 0 => (none, [])
  | i, fuel + 1 =>
    let wh := sizes i
    if wh.1 = 0 ∨ wh.2 = 0 then
      let r := pollWindowSize sizes (i + 1) fuel
      (r.1, VEffect.pollEvents :: r.2)
    else (some wh, [])

/-- Initial fuel for the poll loop: the loop gives up after the 101st
zero-sized read (attempts grows 1..101 and the guard is attempts > 100). -/
def POLL_FUEL : Nat := 101

/-- The capabilities sanity check of recreate_swapchain: implausible
values (minImageCount > 100 or extent beyond 16384) mean the surface is
stale, so it is destroyed and recreated along with the swapchain
cleanup; otherwise only the swapchain is cleaned up. -/
def VCState.validate_caps_cleanup (st : VCState) (caps : SurfaceCaps) :
    VCState × List VEffect :=
  if caps.minImageCount > 100 ∨ caps.currentExtentWidth > 16384 ∨
      caps.currentExtentHeight > 16384 then
    let c0 := st.cleanup_swapchain
    let r := c0.1.recreate_surface
    (r.1, [VEffect.logWarn] ++ c0.2 ++ r.2)
  else
    let c0 := st.cleanup_swapchain
    (c0.1, c0.2)

/-- Which exit recreate_swapchain took. -/
inductive RecreateOutcome where
  | gaveUp          -- window stayed zero-sized
  | capsQueryFailed -- capabilities query returned an unexpected error
  | recreated
deriving DecidableEq

/-- recreate_swapchain: poll for a non-zero window size (bounded), wait
for the device, query surface capabilities; on surface loss or
implausible capabilities destroy and recreate the surface; then rebuild
the swapchain and its image views and clear m_framebuffer_resized. -/
def VCState.recreate_swapchain (st : VCState) (o : FrameOracle) :
    Except String (VCState × List VEffect × RecreateOutcome) :=
  let p := pollWindowSize o.windowSizes 0 POLL_FUEL
  match p.1 with
  | none =>
    .ok ({ st with framebufferResized := false }, p.2 ++ [.logWarn], .gaveUp)
  | some _ =>
    let e0 := p.2 ++ [VEffect.deviceWaitIdle]
    match o.capsResult with
    | .surfaceLost =>
      let c := st.cleanup_swapchain
      let r := c.1.recreate_surface
      match r.1.create_swapchain o with
      | .error e => .error e
      | .ok (st1, e1) =>
        let v := st1.create_image_views o
        .ok ({ v.1 with framebufferResized := false },
             e0 ++ [.logInfo] ++ c.2 ++ r.2 ++ e1 ++ v.2 ++ [.logInfo],
             .recreated)
    | .otherError _ =>
      .ok ({ st with framebufferResized := false },
           e0 ++ [.logError], .capsQueryFailed)
    | .ok caps =>
      let c := st.validate_caps_cleanup caps
      match c.1.create_swapchain o with
      | .error e => .error e
      | .ok (st1, e1) =>
        let v := st1.create_image_views o
        .ok ({ v.1 with framebufferResized := false },
             e0 ++ c.2 ++ e1 ++ v.2 ++ [.logInfo],
             .recreated)

/-- Which exit a successful begin_frame took. -/
inductive BeginOutcome where
  | enteredRecreation -- acquisition reported out-of-date / lost
  | recorded          -- fence reset, command buffer reset, recording begun
deriving DecidableEq

/-- begin_frame: wait on the slot's in-flight fence, acquire the next
image; out-of-date / surface-lost acquisition recreates the swapchain
and returns early; any other failure but suboptimal throws; otherwise
reset the fence and command buffer and begin recording. -/
def VCState.begin_frame (st : VCState) (o : FrameOracle) :
    Except String (VCState × List VEffect × BeginOutcome) :=
  let e0 := [VEffect.waitForFences st.currentFrame, VEffect.acquireNextImage]
  if o.acquireResult = .errorOutOfDateKHR ∨ o.acquireResult = .errorSurfaceLostKHR then
    match st.recreate_swapchain o with
    | .error e => .error e
    | .ok (st1, e1, _) => .ok (st1, e0 ++ e1, .enteredRecreation)
  else if o.acquireResult ≠ .success ∧ o.acquireResult ≠ .suboptimalKHR then
    .error "Failed to acquire swapchain image"
  else if o.beginCmdOk then
    .ok ({ st with imageIndex := o.acquiredImageIndex },
         e0 ++ [.resetFences st.currentFrame, .resetCommandBuffer st.currentFrame,
                .beginCommandBuffer st.currentFrame],
         .recorded)
  else .error "Failed to begin command buffer"

/-- end_frame: finish recording, submit signalling the slot's fence,
present; out-of-date / suboptimal presentation or an observed window
resize triggers swapchain recreation (after clearing the window's resize
flag); any other presentation failure throws; finally the frame slot
advances modulo MAX_FRAMES_IN_FLIGHT.  The Bool reports whether
recreation was entered. -/
def VCState.end_frame (st : VCState) (o : FrameOracle) :
    Except String (VCState × List VEffect × Bool) :=
  if ¬ o.endCmdOk then .error "Failed to record command buffer"
  else if ¬ o.submitOk then .error "Failed to submit command buffer"
  else
    let e0 := [VEffect.endCommandBuffer st.currentFrame,
               VEffect.queueSubmit st.currentFrame, VEffect.queuePresent]
    if o.presentResult = .errorOutOfDateKHR ∨ o.presentResult = .suboptimalKHR ∨
        st.windowResizedFlag then
      let st1 : VCState := { st with windowResizedFlag := false }
      match st1.recreate_swapchain o with
      | .error e => .error e
      | .ok (st2, e2, _) =>
        .ok ({ st2 with currentFrame := (st2.currentFrame + 1) % MAX_FRAMES_IN_FLIGHT },
             e0 ++ e2, true)
    else if o.presentResult ≠ .success then
      .error "Failed to present swapchain image"
    else
      .ok ({ st with currentFrame := (st.currentFrame + 1) % MAX_FRAMES_IN_FLIGHT },
           e0, false)

/-- wait_idle: vkDeviceWaitIdle; no state change. -/
def VCState.wait_idle (st : VCState) : VCState × List VEffect :=
  (st, [.deviceWaitIdle])

/-- begin_single_time_commands / end_single_time_commands: the
synchronous one-shot helper pair; neither touches the frame state. -/
def VCState.single_time_commands (st : VCState) : VCState × List VEffect :=
  (st, [.queueSubmit st.currentFrame, .deviceWaitIdle])

/-! ## Light-count reporting (src/main.cpp, stats.get / scene.get)

The host keeps the light list terminated by a sentinel of zero intensity;
both IPC handlers report lights.size() - 1.  The size_t subtraction is
modelled exactly (mod 2^64). -/

def UINT64_MOD : Nat := 2 ^ 64

/-- The intensity (power) of a light: the w component of its color. -/
def Light.intensity (l : Light) : ℚ := l.color.2.2.2

/-- stats.get handler: the reported light_count is lights.size() - 1
computed in size_t arithmetic. -/
def stats_get_light_count (lights : List Light) : Nat :=
  (lights.length + (UINT64_MOD - 1)) % UINT64_MOD

/-- scene.get handler: iterates i = 0 .. lights.size() - 2 inclusive and
emits one record per light, excluding the terminator.  Returned as the
(id, light) pairs the handler serializes. -/
def scene_get_lights (lights : List Light) : List (Nat × Light) :=
  (lights.take ((lights.length + (UINT64_MOD - 1)) % UINT64_MOD)).enum

/-! ## Operation sequences and auxiliary predicates -/

/-- The public operations of the acceleration-structure manager. -/
inductive MgrOp where
  | createBlas (dev : AccelOracle) (vertices : List Vec3) (indices : List Nat)
  | createCube (dev : AccelOracle)
  | createLetterA (dev : AccelOracle) (atan2F : ℚ → ℚ → ℚ) (cosF sinF : ℚ → ℚ)
  | buildTlas (dev : AccelOracle) (instances : List Instance)

/-- Run a sequence of manager operations, stopping at the first thrown
error. -/
def AccelState.runOps (st : AccelState) : List MgrOp → Except String AccelState
  | [] => .ok st
  | op :: rest =>
    let r : Except String AccelState :=
      match op with
      | .createBlas dev v i => (st.create_blas dev v i).map (·.1)
      | .createCube dev => (st.create_cube_blas dev).map (·.1)
      | .createLetterA dev a c s => (st.create_letter_a_blas dev a c s).map (·.1)
      | .buildTlas dev inst => (st.build_tlas dev inst).map (·.1)
    match r with
    | .error e => .error e
    | .ok st1 => st1.runOps rest

/-- Effects that belong to per-frame recording (fence reset, command
buffer reset, recording begin) — exactly what an early-returning
begin_frame must not issue. -/
def isFrameRecordingEffect : VEffect → Bool
  | .resetFences _ => true
  | .resetCommandBuffer _ => true
  | .beginCommandBuffer _ => true
  | _ => false

/-- A concrete healthy frame-context state used for witnesses. -/
def stC : VCState :=
  { currentFrame := 0, imageIndex := 0, swapchain := 1,
    swapchainExtent := (640, 480), imageViews := [2, 3], surface := 4,
    framebufferResized := false, windowResizedFlag := false, nextId := 10 }

/-- A concrete oracle where acquisition reports VK_SUBOPTIMAL_KHR and
everything else succeeds. -/
def oSub : FrameOracle :=
  { acquireResult := .suboptimalKHR, acquiredImageIndex := 0,
    beginCmdOk := true, endCmdOk := true, submitOk := true,
    presentResult := .success, windowSizes := fun _ => (640, 480),
    capsResult := .ok { minImageCount := 2, currentExtentWidth := 640,
                        currentExtentHeight := 480 },
    createCaps := { minImageCount := 2, currentExtentWidth := 640,
                    currentExtentHeight := 480 },
    swapchainCreateOk := true }

/-- The same oracle but with presentation reporting
VK_ERROR_SURFACE_LOST_KHR. -/
def oLost : FrameOracle := { oSub with presentResult := .errorSurfaceLostKHR }

/-- The same oracle but with acquisition reporting
VK_ERROR_OUT_OF_DATE_KHR. -/
def oOOD : FrameOracle := { oSub with acquireResult := .errorOutOfDateKHR }

/-- The same oracle but with a permanently minimized (0 x 0) window. -/
def oZero : FrameOracle := { oSub with windowSizes := fun _ => (0, 0) }

/-- Effects that create a swapchain. -/
def isSwapchainCreation : VEffect → Bool
  | .createSwapchain _ _ _ => true
  | _ => false

/-- A concrete device oracle for acceleration-structure witnesses. -/
def devW : AccelOracle :=
  { blasAsSize := 0, blasScratchSize := 0, tlasAsSize := 0,
    tlasScratchSize := 0, createOk := true }

/-- A concrete manager state holding one BLAS, for witnesses. -/
def accW : AccelState :=
  { blas_list := [{ handle := 5, buffer := Buffer.null, device_address := 7 }],
    tlas := TLAS.null, nextId := 9 }

/-- A concrete pipeline state with zero-capacity buffers, for
witnesses. -/
def rtW : RTPipelineState :=
  { instanceBuffer := Buffer.null, instanceCount := 0,
    lightBuffer := Buffer.null, lightCount := 0,
    storageImage := 0, storageImageView := 0,
    storageWidth := 0, storageHeight := 0, nextId := 0 }

/-! ## Theorems -/

/-- C1: build_tlas on an empty instance list is a no-op: the manager
state — in particular the previously built TLAS's handle, instance
count, instance buffer and device address — is returned unchanged, the
only effect is the logged warning, and no device work is issued. -/
theorem build_tlas_empty_noop (st : AccelState) (dev : AccelOracle) :
    st.build_tlas dev [] = .ok (st, [AEffect.logWarn]) ∧
    (st.build_tlas dev []).map
        (fun r => (r.1.tlas.handle, r.1.tlas.instance_count,
                   r.1.tlas.instance_buffer, r.1.tlas.buffer.addr)) =
      .ok (st.tlas.handle, st.tlas.instance_count,
           st.tlas.instance_buffer, st.tlas.buffer.addr) ∧
    ([AEffect.logWarn].all fun e => !e.isDeviceWork) = true :=
  ⟨rfl, rfl, rfl⟩

/-- C3: resize_storage_image is idempotent: when the requested
dimensions already equal the current ones the call returns the state
unchanged with no effects (no device wait, no destruction, no
allocation, no descriptor write), and after any first call a second call
with the same arguments is such a no-op, leaving the image handle
unchanged. -/
theorem resize_storage_image_idempotent (st : RTPipelineState)
    (width height : Nat) :
    (width = st.storageWidth → height = st.storageHeight →
      st.resize_storage_image width height = (st, [])) ∧
    ((st.resize_storage_image width height).1.resize_storage_image width height =
      ((st.resize_storage_image width height).1, [])) ∧
    ((st.resize_storage_image width height).1.resize_storage_image width height).1.storageImage =
      (st.resize_storage_image width height).1.storageImage := by
  have hd : ∀ s : RTPipelineState,
      (s.resize_storage_image width height).1.storageWidth = width ∧
      (s.resize_storage_image width height).1.storageHeight = height := by
    intro s
    rw [RTPipelineState.resize_storage_image]
    split
    · next hcond => exact ⟨hcond.1.symm, hcond.2.symm⟩
    · exact ⟨rfl, rfl⟩
  have h2 : (st.resize_storage_image width height).1.resize_storage_image
      width height = ((st.resize_storage_image width height).1, []) := by
    rw [RTPipelineState.resize_storage_image,
        if_pos ⟨(hd st).1.symm, (hd st).2.symm⟩]
  refine ⟨fun hw hh => ?_, h2, by rw [h2]⟩
  rw [RTPipelineState.resize_storage_image, if_pos ⟨hw, hh⟩]

/-- C3 witness: the first conjunct instantiated at matching dimensions. -/
theorem resize_storage_image_idempotent_witness :
    RTPipelineState.resize_storage_image
      { instanceBuffer := Buffer.null, instanceCount := 0,
        lightBuffer := Buffer.null, lightCount := 0,
        storageImage := 3, storageImageView := 4,
        storageWidth := 640, storageHeight := 480, nextId := 4 } 640 480 =
      ({ instanceBuffer := Buffer.null, instanceCount := 0,
         lightBuffer := Buffer.null, lightCount := 0,
         storageImage := 3, storageImageView := 4,
         storageWidth := 640, storageHeight := 480, nextId := 4 }, []) :=
  (resize_storage_image_idempotent _ 640 480).1 rfl rfl

/-- C7: for a host light array of the form ls ++ [sentinel] with
sentinel intensity zero, both external consumers report the array length
minus one: stats.get's light_count equals ls.length, and scene.get
serializes exactly the lights of ls (the sentinel is excluded). -/
theorem light_count_excludes_sentinel (ls : List Light) (sentinel : Light)
    (_hint : sentinel.intensity = 0) (hlen : ls.length + 1 < UINT64_MOD) :
    stats_get_light_count (ls ++ [sentinel]) = ls.length ∧
    scene_get_lights (ls ++ [sentinel]) = ls.enum ∧
    (scene_get_lights (ls ++ [sentinel])).length = ls.length := by
  have hmod : ((ls ++ [sentinel]).length + (UINT64_MOD - 1)) % UINT64_MOD
      = ls.length := by
    simp only [List.length_append, List.length_singleton]
    have hM : UINT64_MOD = 2 ^ 64 := rfl
    rw [hM] at hlen ⊢
    omega
  refine ⟨hmod, ?_, ?_⟩
  · rw [scene_get_lights, hmod, List.take_left ls [sentinel]]
  · rw [scene_get_lights, hmod, List.take_left ls [sentinel]]
    simp

/-- C7 witness: one light plus a zero-intensity terminator reports a
light count of one. -/
theorem light_count_excludes_sentinel_witness :
    stats_get_light_count
      [{ position := (0, 2, 0, 10), color := (1, 1, 1, 5) },
       { position := (0, 0, 0, 0), color := (0, 0, 0, 0) }] = 1 :=
  (light_count_excludes_sentinel
    [{ position := (0, 2, 0, 10), color := (1, 1, 1, 5) }]
    { position := (0, 0, 0, 0), color := (0, 0, 0, 0) }
    rfl (by norm_num [UINT64_MOD])).1

/-- C9: Buffer ownership: destroy unmaps a mapped buffer before freeing
it, a destroyed or moved-from buffer frees nothing when destroyed again
(the allocation is freed exactly once), and move assignment destroys the
destination's previous allocation and nulls the source. -/
theorem buffer_destroyed_exactly_once (b dst other : Buffer)
    (hv : b.handle ≠ 0) (hc : b.ctx = true) :
    (b.mapped = true →
      b.destroy.2 = [.unmapMemory b.allocation,
                     .destroyBuffer b.handle b.allocation]) ∧
    (b.mapped = false →
      b.destroy.2 = [.destroyBuffer b.handle b.allocation]) ∧
    freeCount b.destroy.2 = 1 ∧
    b.destroy.1.destroy = (b.destroy.1, []) ∧
    ((Buffer.moveCtor b).2.handle = 0 ∧
      (Buffer.moveCtor b).2.destroy = ((Buffer.moveCtor b).2, [])) ∧
    (Buffer.moveAssign dst other =
      (other,
       { ctx := false, handle := 0, allocation := 0, size := 0,
         mapped := false, addr := other.addr },
       dst.destroy.2)) ∧
    ((Buffer.moveAssign dst other).2.1.destroy =
      ((Buffer.moveAssign dst other).2.1, [])) := by
  refine ⟨fun hm => ?_, fun hm => ?_, ?_, ?_, ⟨rfl, ?_⟩, rfl, ?_⟩
  · simp [Buffer.destroy, Buffer.unmap, hv, hc, hm]
  · simp [Buffer.destroy, Buffer.unmap, hv, hc, hm]
  · by_cases hm : b.mapped <;>
      simp [Buffer.destroy, Buffer.unmap, hv, hc, hm, freeCount]
  · by_cases hm : b.mapped <;>
      simp [Buffer.destroy, Buffer.unmap, hv, hc, hm]
  · simp [Buffer.moveCtor, Buffer.destroy]
  · simp [Buffer.moveAssign, Buffer.destroy]

/-- C9 witness: a valid mapped buffer destroyed twice unmaps, frees
once, and the second destroy does nothing. -/
theorem buffer_destroyed_exactly_once_witness :
    (Buffer.destroy
      { ctx := true, handle := 7, allocation := 8, size := 64,
        mapped := true, addr := 9 }).2 =
      [.unmapMemory 8, .destroyBuffer 7 8] :=
  (buffer_destroyed_exactly_once
    { ctx := true, handle := 7, allocation := 8, size := 64,
      mapped := true, addr := 9 }
    Buffer.null Buffer.null (by decide) rfl).1 rfl

/-- Helper: set_instances never shrinks the instance buffer. -/
theorem set_instances_size_mono (st : RTPipelineState)
    (xs : List GlyphInstance) :
    st.instanceBuffer.size ≤ (st.set_instances xs).1.instanceBuffer.size := by
  by_cases h1 : xs.isEmpty
  · simp [RTPipelineState.set_instances, h1]
  · by_cases h2 : xs.length * sizeofGlyphInstance > st.instanceBuffer.size
    · simp only [RTPipelineState.set_instances, h1, Bool.false_eq_true,
        if_false, if_pos h2]
      omega
    · simp [RTPipelineState.set_instances, h1, h2]

/-- Helper: set_instances leaves the light buffer untouched. -/
theorem set_instances_lightBuffer_eq (st : RTPipelineState)
    (xs : List GlyphInstance) :
    (st.set_instances xs).1.lightBuffer = st.lightBuffer := by
  by_cases h1 : xs.isEmpty
  · simp [RTPipelineState.set_instances, h1]
  · by_cases h2 : xs.length * sizeofGlyphInstance > st.instanceBuffer.size <;>
      simp [RTPipelineState.set_instances, h1, h2]

/-- Helper: set_lights never shrinks the light buffer. -/
theorem set_lights_size_mono (st : RTPipelineState) (ys : List Light) :
    st.lightBuffer.size ≤ (st.set_lights ys).1.lightBuffer.size := by
  by_cases h1 : ys.isEmpty
  · simp [RTPipelineState.set_lights, h1]
  · by_cases h2 : ys.length * sizeofLight > st.lightBuffer.size
    · simp only [RTPipelineState.set_lights, h1, Bool.false_eq_true,
        if_false, if_pos h2]
      omega
    · simp [RTPipelineState.set_lights, h1, h2]

/-- Helper: set_lights leaves the instance buffer untouched. -/
theorem set_lights_instanceBuffer_eq (st : RTPipelineState) (ys : List Light) :
    (st.set_lights ys).1.instanceBuffer = st.instanceBuffer := by
  by_cases h1 : ys.isEmpty
  · simp [RTPipelineState.set_lights, h1]
  · by_cases h2 : ys.length * sizeofLight > st.lightBuffer.size <;>
      simp [RTPipelineState.set_lights, h1, h2]

/-- Helper: buffer capacities are monotone along any call sequence. -/
theorem runCalls_size_mono (calls : List RTCall) (st : RTPipelineState) :
    st.instanceBuffer.size ≤ (st.runCalls calls).instanceBuffer.size ∧
    st.lightBuffer.size ≤ (st.runCalls calls).lightBuffer.size := by
  induction calls generalizing st with
  | nil => exact ⟨Nat.le_refl _, Nat.le_refl _⟩
  | cons c rest ih =>
    cases c with
    | setInstances xs =>
      have hstep := set_instances_size_mono st xs
      have hother := set_instances_lightBuffer_eq st xs
      have hrest := ih (st.set_instances xs).1
      refine ⟨le_trans hstep hrest.1, ?_⟩
      calc st.lightBuffer.size
          = (st.set_instances xs).1.lightBuffer.size := by rw [hother]
        _ ≤ _ := hrest.2
    | setLights ys =>
      have hstep := set_lights_size_mono st ys
      have hother := set_lights_instanceBuffer_eq st ys
      have hrest := ih (st.set_lights ys).1
      refine ⟨?_, le_trans hstep hrest.2⟩
      calc st.instanceBuffer.size
          = (st.set_lights ys).1.instanceBuffer.size := by rw [hother]
        _ ≤ _ := hrest.1

/-- C2: growable-buffer law for set_instances / set_lights: capacities
never decrease across any call sequence; a call replaces its buffer
exactly when the required byte size exceeds the current capacity; and a
reallocation sets the capacity to twice the required size (hence at
least 2x) and rebinds the storage-buffer descriptor to the new buffer
within the same call. -/
theorem grow_only_device_buffers (st : RTPipelineState)
    (xs : List GlyphInstance) (ys : List Light) (calls : List RTCall) :
    st.instanceBuffer.size ≤ (st.runCalls calls).instanceBuffer.size ∧
    st.lightBuffer.size ≤ (st.runCalls calls).lightBuffer.size ∧
    ((st.set_instances xs).1.instanceBuffer ≠ st.instanceBuffer ↔
      xs ≠ [] ∧ xs.length * sizeofGlyphInstance > st.instanceBuffer.size) ∧
    ((st.set_lights ys).1.lightBuffer ≠ st.lightBuffer ↔
      ys ≠ [] ∧ ys.length * sizeofLight > st.lightBuffer.size) ∧
    (xs ≠ [] → xs.length * sizeofGlyphInstance > st.instanceBuffer.size →
      (st.set_instances xs).1.instanceBuffer.size =
        xs.length * sizeofGlyphInstance * 2 ∧
      2 * (xs.length * sizeofGlyphInstance) ≤
        (st.set_instances xs).1.instanceBuffer.size ∧
      RTEffect.writeBufferDescriptor 2 (st.set_instances xs).1.instanceBuffer.handle
        ∈ (st.set_instances xs).2) ∧
    (ys ≠ [] → ys.length * sizeofLight > st.lightBuffer.size →
      (st.set_lights ys).1.lightBuffer.size = ys.length * sizeofLight * 2 ∧
      2 * (ys.length * sizeofLight) ≤ (st.set_lights ys).1.lightBuffer.size ∧
      RTEffect.writeBufferDescriptor 3 (st.set_lights ys).1.lightBuffer.handle
        ∈ (st.set_lights ys).2) := by
  refine ⟨(runCalls_size_mono calls st).1, (runCalls_size_mono calls st).2,
    ?_, ?_, ?_, ?_⟩
  · constructor
    · intro hne
      by_cases h1 : xs.isEmpty
      · exact absurd (by simp [RTPipelineState.set_instances, h1]) hne
      · by_cases h2 : xs.length * sizeofGlyphInstance > st.instanceBuffer.size
        · exact ⟨by simpa using h1, h2⟩
        · exact absurd (by simp [RTPipelineState.set_instances, h1, h2]) hne
    · rintro ⟨hne, h2⟩
      have h1 : xs.isEmpty = false := by simpa using hne
      intro heq
      have hsz := congrArg Buffer.size heq
      simp only [RTPipelineState.set_instances, h1, Bool.false_eq_true,
        if_false, if_pos h2] at hsz
      omega
  · constructor
    · intro hne
      by_cases h1 : ys.isEmpty
      · exact absurd (by simp [RTPipelineState.set_lights, h1]) hne
      · by_cases h2 : ys.length * sizeofLight > st.lightBuffer.size
        · exact ⟨by simpa using h1, h2⟩
        · exact absurd (by simp [RTPipelineState.set_lights, h1, h2]) hne
    · rintro ⟨hne, h2⟩
      have h1 : ys.isEmpty = false := by simpa using hne
      intro heq
      have hsz := congrArg Buffer.size heq
      simp only [RTPipelineState.set_lights, h1, Bool.false_eq_true,
        if_false, if_pos h2] at hsz
      omega
  · intro hne h2
    have h1 : xs.isEmpty = false := by simpa using hne
    have hsize : (st.set_instances xs).1.instanceBuffer.size =
        xs.length * sizeofGlyphInstance * 2 := by
      simp [RTPipelineState.set_instances, h1, h2]
    refine ⟨hsize, by rw [hsize]; omega, ?_⟩
    simp [RTPipelineState.set_instances, h1, h2]
  · intro hne h2
    have h1 : ys.isEmpty = false := by simpa using hne
    have hsize : (st.set_lights ys).1.lightBuffer.size =
        ys.length * sizeofLight * 2 := by
      simp [RTPipelineState.set_lights, h1, h2]
    refine ⟨hsize, by rw [hsize]; omega, ?_⟩
    simp [RTPipelineState.set_lights, h1, h2]

/-- C2 witness: from a zero-capacity buffer, one instance of 32 bytes
forces a reallocation to 64 bytes. -/
theorem grow_only_device_buffers_witness :
    (RTPipelineState.set_instances rtW
      [{ color := (1, 0, 0, 1), emission := (0, 0, 0, 0) }]).1.instanceBuffer.size =
      1 * sizeofGlyphInstance * 2 :=
  ((grow_only_device_buffers rtW
      [{ color := (1, 0, 0, 1), emission := (0, 0, 0, 0) }] [] []).2.2.2.2.1
    (List.cons_ne_nil _ _)
    (by norm_num [sizeofGlyphInstance, rtW, Buffer.null])).1

/-- Helper: cleanup_swapchain does not touch the frame slot and issues
no frame-recording effect. -/
theorem cleanup_swapchain_facts (st : VCState) :
    st.cleanup_swapchain.1.currentFrame = st.currentFrame ∧
    ∀ e ∈ st.cleanup_swapchain.2, isFrameRecordingEffect e = false := by
  rw [VCState.cleanup_swapchain]
  split <;> refine ⟨rfl, fun e he => ?_⟩
  · simp only [List.mem_append, List.mem_map, List.mem_singleton] at he
    rcases he with ⟨v, -, rfl⟩ | rfl <;> rfl
  · simp only [List.mem_map] at he
    obtain ⟨v, -, rfl⟩ := he
    rfl

/-- Helper: recreate_surface does not touch the frame slot and issues no
frame-recording effect. -/
theorem recreate_surface_facts (st : VCState) :
    st.recreate_surface.1.currentFrame = st.currentFrame ∧
    ∀ e ∈ st.recreate_surface.2, isFrameRecordingEffect e = false := by
  refine ⟨?_, fun e he => ?_⟩
  · by_cases h : st.surface = 0 <;> simp [VCState.recreate_surface, h]
  · by_cases h : st.surface = 0
    · simp only [VCState.recreate_surface, h, ne_eq, not_true_eq_false,
        if_false, List.nil_append, List.mem_singleton] at he
      subst he
      rfl
    · simp only [VCState.recreate_surface, ne_eq, h, not_false_eq_true,
        if_true, List.mem_append, List.mem_singleton] at he
      rcases he with rfl | rfl <;> rfl

/-- Helper: create_swapchain preserves the frame slot and issues no
frame-recording effect. -/
theorem create_swapchain_facts (st : VCState) (o : FrameOracle)
    (st1 : VCState) (e : List VEffect)
    (h : st.create_swapchain o = .ok (st1, e)) :
    st1.currentFrame = st.currentFrame ∧
    ∀ x ∈ e, isFrameRecordingEffect x = false := by
  rw [VCState.create_swapchain] at h
  by_cases hc : o.swapchainCreateOk
  · rw [if_pos hc] at h
    simp only [Except.ok.injEq, Prod.mk.injEq] at h
    obtain ⟨h1, h2⟩ := h
    subst h1
    subst h2
    refine ⟨rfl, fun x hx => ?_⟩
    simp only [List.mem_cons, List.mem_singleton, List.not_mem_nil,
      or_false] at hx
    rcases hx with rfl | rfl <;> rfl
  · rw [if_neg hc] at h
    exact absurd h (by simp)

/-- Helper: validate_caps_cleanup preserves the frame slot and issues
no frame-recording effect. -/
theorem validate_caps_cleanup_facts (st : VCState) (caps : SurfaceCaps) :
    (st.validate_caps_cleanup caps).1.currentFrame = st.currentFrame ∧
    ∀ e ∈ (st.validate_caps_cleanup caps).2,
      isFrameRecordingEffect e = false := by
  rw [VCState.validate_caps_cleanup]
  split
  · refine ⟨?_, fun e he => ?_⟩
    · rw [(recreate_surface_facts _).1, (cleanup_swapchain_facts st).1]
    · simp only [List.mem_append, List.mem_cons, List.not_mem_nil,
        or_false] at he
      rcases he with (rfl | hc) | hr
      · rfl
      · exact (cleanup_swapchain_facts st).2 e hc
      · exact (recreate_surface_facts _).2 e hr
  · exact cleanup_swapchain_facts st

/-- Helper: the poll loop only issues pollEvents. -/
theorem pollWindowSize_effects (s : Nat → Nat × Nat) (fuel i : Nat) :
    ∀ e ∈ (pollWindowSize s i fuel).2, isFrameRecordingEffect e = false := by
  induction fuel generalizing i with
  | zero => intro e he; exact absurd he (List.not_mem_nil e)
  | succ n ih =>
    intro e he
    rw [pollWindowSize] at he
    split at he
    · rcases List.mem_cons.mp he with rfl | he'
      · rfl
      · exact ih (i + 1) e he'
    · exact absurd he (List.not_mem_nil e)

/-- Helper: a successful recreate_swapchain preserves the frame slot,
clears the framebuffer-resized flag, and issues no frame-recording
effect. -/
theorem recreate_swapchain_facts (st : VCState) (o : FrameOracle)
    (st1 : VCState) (effs : List VEffect) (oc : RecreateOutcome)
    (h : st.recreate_swapchain o = .ok (st1, effs, oc)) :
    st1.currentFrame = st.currentFrame ∧
    st1.framebufferResized = false ∧
    ∀ e ∈ effs, isFrameRecordingEffect e = false := by
  rw [VCState.recreate_swapchain] at h
  split at h
  · -- poll loop gave up
    simp only [Except.ok.injEq, Prod.mk.injEq] at h
    obtain ⟨h1, h2, -⟩ := h
    subst h1
    subst h2
    refine ⟨rfl, rfl, fun e he => ?_⟩
    rcases List.mem_append.mp he with hp | hw
    · exact pollWindowSize_effects _ _ _ e hp
    · rw [List.mem_singleton.mp hw]
      rfl
  · -- non-zero window size was read
    dsimp only at h
    split at h
    · -- capabilities query reported the surface lost
      rcases hcs : (st.cleanup_swapchain.1.recreate_surface.1.create_swapchain o)
        with e' | ⟨st2, e1⟩
      · rw [hcs] at h
        exact absurd h (by simp)
      · rw [hcs] at h
        simp only [Except.ok.injEq, Prod.mk.injEq] at h
        obtain ⟨h1, h2, -⟩ := h
        subst h1
        subst h2
        have hcsf := create_swapchain_facts _ o st2 e1 hcs
        refine ⟨?_, rfl, ?_⟩
        · show st2.currentFrame = st.currentFrame
          rw [hcsf.1, (recreate_surface_facts _).1, (cleanup_swapchain_facts st).1]
        · simp only [List.append_assoc, List.forall_mem_append,
            List.forall_mem_singleton]
          exact ⟨pollWindowSize_effects _ _ _, rfl, rfl,
            (cleanup_swapchain_facts st).2, (recreate_surface_facts _).2,
            hcsf.2, fun e he => by rw [List.mem_singleton.mp he]; rfl, rfl⟩
    · -- capabilities query failed with an unexpected error
      simp only [Except.ok.injEq, Prod.mk.injEq] at h
      obtain ⟨h1, h2, -⟩ := h
      subst h1
      subst h2
      refine ⟨rfl, rfl, ?_⟩
      simp only [List.append_assoc, List.forall_mem_append,
        List.forall_mem_singleton]
      exact ⟨pollWindowSize_effects _ _ _, rfl, rfl⟩
    · -- capabilities are available and were sanity-checked
      next caps hcaps =>
      rcases hcs : ((st.validate_caps_cleanup caps).1.create_swapchain o)
        with e' | ⟨st2, e1⟩
      · rw [hcs] at h
        exact absurd h (by simp)
      · rw [hcs] at h
        simp only [Except.ok.injEq, Prod.mk.injEq] at h
        obtain ⟨h1, h2, -⟩ := h
        subst h1
        subst h2
        have hcsf := create_swapchain_facts _ o st2 e1 hcs
        refine ⟨?_, rfl, ?_⟩
        · show st2.currentFrame = st.currentFrame
          rw [hcsf.1, (validate_caps_cleanup_facts st caps).1]
        · simp only [List.append_assoc, List.forall_mem_append,
            List.forall_mem_singleton]
          exact ⟨pollWindowSize_effects _ _ _, rfl,
            (validate_caps_cleanup_facts st caps).2, hcsf.2,
            fun e he => by rw [List.mem_singleton.mp he]; rfl, rfl⟩

/-- C4: every completed end_frame advances the frame-slot index by
exactly one modulo N = 2; no other frame-context operation (begin_frame,
recreate_swapchain, wait_idle, the single-time-command helpers,
cleanup_swapchain, recreate_surface) changes it; and the advanced index
is always 0 or 1. -/
theorem frame_slot_advances_mod_two (st : VCState) (o : FrameOracle) :
    MAX_FRAMES_IN_FLIGHT = 2 ∧
    (∀ st1 effs rec, st.end_frame o = .ok (st1, effs, rec) →
      st1.currentFrame = (st.currentFrame + 1) % 2 ∧ st1.currentFrame < 2) ∧
    (∀ st1 effs oc, st.begin_frame o = .ok (st1, effs, oc) →
      st1.currentFrame = st.currentFrame) ∧
    (∀ st1 effs oc, st.recreate_swapchain o = .ok (st1, effs, oc) →
      st1.currentFrame = st.currentFrame) ∧
    st.wait_idle.1.currentFrame = st.currentFrame ∧
    st.single_time_commands.1.currentFrame = st.currentFrame ∧
    st.cleanup_swapchain.1.currentFrame = st.currentFrame ∧
    st.recreate_surface.1.currentFrame = st.currentFrame := by
  refine ⟨rfl, ?_, ?_, fun st1 effs oc h => (recreate_swapchain_facts st o st1 effs oc h).1,
    rfl, rfl, (cleanup_swapchain_facts st).1, (recreate_surface_facts st).1⟩
  · intro st1 effs rec h
    rw [VCState.end_frame] at h
    split at h
    · exact absurd h (by simp)
    · split at h
      · exact absurd h (by simp)
      · dsimp only at h
        split at h
        · -- presentation triggered recreation before the advance
          rcases hrs : ({ st with windowResizedFlag := false } :
              VCState).recreate_swapchain o with e' | ⟨st2, e2, oc2⟩
          · rw [hrs] at h
            exact absurd h (by simp)
          · rw [hrs] at h
            simp only [Except.ok.injEq, Prod.mk.injEq] at h
            obtain ⟨h1, -, -⟩ := h
            subst h1
            have hf := (recreate_swapchain_facts _ o st2 e2 oc2 hrs).1
            constructor
            · show (st2.currentFrame + 1) % MAX_FRAMES_IN_FLIGHT =
                (st.currentFrame + 1) % 2
              rw [hf]
              rfl
            · exact Nat.mod_lt _ (by decide)
        · split at h
          · exact absurd h (by simp)
          · simp only [Except.ok.injEq, Prod.mk.injEq] at h
            obtain ⟨h1, -, -⟩ := h
            subst h1
            exact ⟨rfl, Nat.mod_lt _ (by decide)⟩
  · intro st1 effs oc h
    rw [VCState.begin_frame] at h
    split at h
    · rcases hrs : st.recreate_swapchain o with e' | ⟨st2, e2, oc2⟩
      · rw [hrs] at h
        exact absurd h (by simp)
      · rw [hrs] at h
        simp only [Except.ok.injEq, Prod.mk.injEq] at h
        obtain ⟨h1, -, -⟩ := h
        subst h1
        exact (recreate_swapchain_facts st o st2 e2 oc2 hrs).1
    · split at h
      · exact absurd h (by simp)
      · split at h
        · simp only [Except.ok.injEq, Prod.mk.injEq] at h
          obtain ⟨h1, -, -⟩ := h
          subst h1
          rfl
        · exact absurd h (by simp)

/-- C4 witness: a successful frame at slot 0 advances the slot to 1. -/
theorem frame_slot_advances_mod_two_witness :
    VCState.end_frame stC oSub =
      .ok ({ stC with currentFrame := 1 },
           [.endCommandBuffer 0, .queueSubmit 0, .queuePresent], false) ∧
    ({ stC with currentFrame := 1 } : VCState).currentFrame =
      (stC.currentFrame + 1) % 2 :=
  ⟨rfl, ((frame_slot_advances_mod_two stC oSub).2.1 _ _ _ rfl).1⟩

/-- C5 counterexample: at a concrete healthy state, acquisition
reporting VK_SUBOPTIMAL_KHR does not enter swapchain recreation —
begin_frame proceeds to reset the fence and record normally — and
presentation reporting VK_ERROR_SURFACE_LOST_KHR throws a fatal error
instead of recreating, contradicting the claim that out-of-date,
suboptimal, or lost on either call enters the recreation transition. -/
theorem swapchain_recreation_triggers_counterexample :
    VCState.begin_frame stC oSub =
      .ok ({ stC with imageIndex := 0 },
           [.waitForFences 0, .acquireNextImage, .resetFences 0,
            .resetCommandBuffer 0, .beginCommandBuffer 0], .recorded) ∧
    VCState.end_frame stC oLost = .error "Failed to present swapchain image" :=
  ⟨rfl, rfl⟩

/-- C5 (amended): acquisition reporting out-of-date or lost enters
swapchain recreation and returns early with no fence reset and no
command recording; acquisition reporting suboptimal proceeds with a
normal frame; presentation reporting out-of-date or suboptimal, or an
observed window resize, enters recreation; presentation reporting the
surface lost (without a pending resize) is a fatal error. -/
theorem swapchain_recreation_triggers (st : VCState) (o : FrameOracle) :
    ((o.acquireResult = .errorOutOfDateKHR ∨
        o.acquireResult = .errorSurfaceLostKHR) →
      ∀ st1 effs oc, st.begin_frame o = .ok (st1, effs, oc) →
        oc = .enteredRecreation ∧
        ∀ e ∈ effs, isFrameRecordingEffect e = false) ∧
    (o.acquireResult = .suboptimalKHR → o.beginCmdOk = true →
      st.begin_frame o =
        .ok ({ st with imageIndex := o.acquiredImageIndex },
             [.waitForFences st.currentFrame, .acquireNextImage,
              .resetFences st.currentFrame, .resetCommandBuffer st.currentFrame,
              .beginCommandBuffer st.currentFrame], .recorded)) ∧
    (o.endCmdOk = true → o.submitOk = true →
      (o.presentResult = .errorOutOfDateKHR ∨
        o.presentResult = .suboptimalKHR ∨ st.windowResizedFlag = true) →
      ∀ st1 effs rec, st.end_frame o = .ok (st1, effs, rec) → rec = true) ∧
    (o.endCmdOk = true → o.submitOk = true →
      o.presentResult = .errorSurfaceLostKHR → st.windowResizedFlag = false →
      st.end_frame o = .error "Failed to present swapchain image") := by
  refine ⟨?_, ?_, ?_, ?_⟩
  · intro hacq st1 effs oc h
    rw [VCState.begin_frame, if_pos hacq] at h
    rcases hrs : st.recreate_swapchain o with e' | ⟨st2, e2, oc2⟩
    · rw [hrs] at h
      exact absurd h (by simp)
    · rw [hrs] at h
      simp only [Except.ok.injEq, Prod.mk.injEq] at h
      obtain ⟨h1, h2, h3⟩ := h
      subst h1
      subst h2
      subst h3
      refine ⟨rfl, ?_⟩
      intro e he
      rcases List.mem_cons.mp he with rfl | he'
      · rfl
      · rcases List.mem_cons.mp he' with rfl | he''
        · rfl
        · exact (recreate_swapchain_facts st o st2 e2 oc2 hrs).2.2 e he''
  · intro hacq hb
    rw [VCState.begin_frame, if_neg (by simp [hacq]), if_neg (by simp [hacq]),
        if_pos hb]
    rfl
  · intro he hs hp st1 effs rec h
    rw [VCState.end_frame, if_neg (by simp [he]), if_neg (by simp [hs])] at h
    dsimp only at h
    rw [if_pos hp] at h
    rcases hrs : ({ st with windowResizedFlag := false } :
        VCState).recreate_swapchain o with e' | ⟨st2, e2, oc2⟩
    · rw [hrs] at h
      exact absurd h (by simp)
    · rw [hrs] at h
      simp only [Except.ok.injEq, Prod.mk.injEq] at h
      exact h.2.2.symm
  · intro he hs hp hr
    rw [VCState.end_frame, if_neg (by simp [he]), if_neg (by simp [hs])]
    dsimp only
    rw [if_neg (by simp [hp, hr]), if_pos (by simp [hp])]

/-- C5 witness: acquisition reporting out-of-date at a concrete state
enters recreation with no frame-recording effect issued. -/
theorem swapchain_recreation_triggers_witness :
    VCState.end_frame stC oLost = .error "Failed to present swapchain image" :=
  (swapchain_recreation_triggers stC oLost).2.2.2 rfl rfl rfl rfl

/-- C6: with a window that stays zero-sized, recreate_swapchain's poll
loop terminates after exhausting its fixed budget of 101 attempts and
the call gives up: it returns successfully (no error), clears the
framebuffer-resized flag, leaves the rest of the state — in particular
the swapchain — untouched, and its trace contains no swapchain
creation. -/
theorem recreate_swapchain_zero_window_gives_up (st : VCState)
    (o : FrameOracle)
    (hz : ∀ i, (o.windowSizes i).1 = 0 ∨ (o.windowSizes i).2 = 0) :
    st.recreate_swapchain o =
      .ok ({ st with framebufferResized := false },
           List.replicate POLL_FUEL VEffect.pollEvents ++ [.logWarn],
           .gaveUp) ∧
    POLL_FUEL = 101 ∧
    ({ st with framebufferResized := false } : VCState).swapchain =
      st.swapchain ∧
    ∀ e ∈ List.replicate POLL_FUEL VEffect.pollEvents ++ [VEffect.logWarn],
      isSwapchainCreation e = false := by
  have hpoll : ∀ fuel i, pollWindowSize o.windowSizes i fuel =
      (none, List.replicate fuel VEffect.pollEvents) := by
    intro fuel
    induction fuel with
    | zero => intro i; rfl
    | succ n ih =>
      intro i
      rw [pollWindowSize, if_pos (hz i), ih (i + 1), List.replicate_succ]
  refine ⟨?_, rfl, rfl, ?_⟩
  · rw [VCState.recreate_swapchain, hpoll POLL_FUEL 0]
  · intro e he
    rcases List.mem_append.mp he with hp | hw
    · rw [List.eq_of_mem_replicate hp]
      rfl
    · rw [List.mem_singleton.mp hw]
      rfl

/-- C6 witness: the give-up result at a concrete state and a window
that always reads 0 x 0. -/
theorem recreate_swapchain_zero_window_gives_up_witness :
    VCState.recreate_swapchain stC oZero =
      .ok ({ stC with framebufferResized := false },
           List.replicate POLL_FUEL VEffect.pollEvents ++ [.logWarn],
           .gaveUp) :=
  (recreate_swapchain_zero_window_gives_up stC oZero
    (fun _ => Or.inl rfl)).1

/-- Helper: masking with the 32-bit complement of a power-of-two minus
one rounds down to a multiple of that power of two. -/
theorem land_align_mask (k x : Nat) (hk : k ≤ 32) (hx : x < 2 ^ 32) :
    x &&& (2 ^ 32 - 2 ^ k) = 2 ^ k * (x / 2 ^ k) := by
  have hmask : (2 ^ 32 - 2 ^ k : Nat) = (2 ^ (32 - k) - 1) <<< k := by
    rw [Nat.shiftLeft_eq, Nat.sub_mul, one_mul, ← pow_add, Nat.sub_add_cancel hk]
  have hrhs : 2 ^ k * (x / 2 ^ k) = (x >>> k) <<< k := by
    rw [Nat.shiftRight_eq_div_pow, Nat.shiftLeft_eq, Nat.mul_comm]
  rw [hmask, hrhs]
  apply Nat.eq_of_testBit_eq
  intro i
  rw [Nat.testBit_and, Nat.testBit_shiftLeft, Nat.testBit_shiftLeft,
      Nat.testBit_shiftRight]
  by_cases hik : k ≤ i
  · have h1 : k + (i - k) = i := by omega
    rw [h1]
    by_cases hi32 : i < 32
    · have h2 : i - k < 32 - k := by omega
      simp [hik, h2, Nat.testBit_two_pow_sub_one, ge_iff_le]
    · have hxz : x.testBit i = false :=
        Nat.testBit_lt_two_pow (lt_of_lt_of_le hx
          (Nat.pow_le_pow_right (by norm_num) (by omega)))
      simp [hxz]
  · simp [hik, ge_iff_le]

/-- Helper: the 32-bit alignment bit trick of
create_shader_binding_table equals rounding up to the next multiple of
the (power-of-two) alignment. -/
theorem handle_size_aligned_eq (hs k : Nat) (hk : k ≤ 32)
    (hbound : hs + 2 ^ k ≤ 2 ^ 32) :
    ((hs + 2 ^ k - 1) % UINT32_MOD) &&& not32 (2 ^ k - 1) =
      alignUp hs (2 ^ k) := by
  have hone : (1 : Nat) ≤ 2 ^ k := Nat.one_le_two_pow
  have hle : (2 : Nat) ^ k ≤ 2 ^ 32 := Nat.pow_le_pow_right (by norm_num) hk
  have h1 : hs + 2 ^ k - 1 < 2 ^ 32 := by omega
  have hmod : (hs + 2 ^ k - 1) % UINT32_MOD = hs + 2 ^ k - 1 :=
    Nat.mod_eq_of_lt (by simpa [UINT32_MOD] using h1)
  have hnot : not32 (2 ^ k - 1) = 2 ^ 32 - 2 ^ k := by
    rw [not32, Nat.mod_eq_of_lt (show 2 ^ k - 1 < UINT32_MOD by
      simp only [UINT32_MOD]; omega)]
    simp only [UINT32_MOD]
    omega
  rw [hmod, hnot, land_align_mask k _ hk h1, alignUp, Nat.mul_comm]

/-- C8: the shader binding table is laid out as raygen at offset 0
occupying one base-alignment unit; a miss region at offset
base_alignment whose three handles sit at relative offsets 0, one and
two aligned-handle strides (primary, shadow, bounce), with the stride
the handle size rounded up to the per-handle alignment and the region
rounded up to the base alignment; a hit region of one base-alignment
unit immediately after the padded miss region; and an empty callable
region. -/
theorem sbt_layout_regions (p : RTProperties) (k : Nat)
    (hha : p.shaderGroupHandleAlignment = 2 ^ k) (hk : k ≤ 32)
    (hbound : p.shaderGroupHandleSize + p.shaderGroupHandleAlignment ≤ 2 ^ 32) :
    (create_shader_binding_table p).raygenOffset = 0 ∧
    (create_shader_binding_table p).raygenSize = p.shaderGroupBaseAlignment ∧
    (create_shader_binding_table p).missOffset = p.shaderGroupBaseAlignment ∧
    (create_shader_binding_table p).missStride =
      alignUp p.shaderGroupHandleSize p.shaderGroupHandleAlignment ∧
    (create_shader_binding_table p).missSize =
      alignUp (3 * alignUp p.shaderGroupHandleSize p.shaderGroupHandleAlignment)
        p.shaderGroupBaseAlignment ∧
    (create_shader_binding_table p).hitOffset =
      p.shaderGroupBaseAlignment +
        alignUp (3 * alignUp p.shaderGroupHandleSize p.shaderGroupHandleAlignment)
          p.shaderGroupBaseAlignment ∧
    (create_shader_binding_table p).hitSize = p.shaderGroupBaseAlignment ∧
    (create_shader_binding_table p).callableStride = 0 ∧
    (create_shader_binding_table p).callableSize = 0 ∧
    (create_shader_binding_table p).handleWrites =
      [(0, 0),
       (p.shaderGroupBaseAlignment, 1),
       (p.shaderGroupBaseAlignment +
         alignUp p.shaderGroupHandleSize p.shaderGroupHandleAlignment, 2),
       (p.shaderGroupBaseAlignment +
         2 * alignUp p.shaderGroupHandleSize p.shaderGroupHandleAlignment, 3),
       (p.shaderGroupBaseAlignment +
         alignUp (3 * alignUp p.shaderGroupHandleSize p.shaderGroupHandleAlignment)
           p.shaderGroupBaseAlignment, 4)] ∧
    (create_shader_binding_table p).totalSize =
      p.shaderGroupBaseAlignment +
        alignUp (3 * alignUp p.shaderGroupHandleSize p.shaderGroupHandleAlignment)
          p.shaderGroupBaseAlignment +
        p.shaderGroupBaseAlignment := by
  have hkey : ((p.shaderGroupHandleSize + p.shaderGroupHandleAlignment - 1) %
        UINT32_MOD) &&& not32 (p.shaderGroupHandleAlignment - 1) =
      alignUp p.shaderGroupHandleSize p.shaderGroupHandleAlignment := by
    rw [hha] at hbound ⊢
    exact handle_size_aligned_eq p.shaderGroupHandleSize k hk hbound
  dsimp only [create_shader_binding_table]
  rw [hkey]
  exact ⟨rfl, rfl, rfl, rfl, rfl, rfl, rfl, rfl, rfl, rfl, rfl⟩

/-- C8 witness: realistic device properties (handle size 32, handle
alignment 64, base alignment 64) give a miss stride of 64. -/
theorem sbt_layout_regions_witness :
    (create_shader_binding_table
      { shaderGroupHandleSize := 32, shaderGroupHandleAlignment := 64,
        shaderGroupBaseAlignment := 64 }).missStride = 64 :=
  (sbt_layout_regions
    { shaderGroupHandleSize := 32, shaderGroupHandleAlignment := 64,
      shaderGroupBaseAlignment := 64 } 6 rfl (by norm_num)
    (by norm_num)).2.2.2.1

/-- Helper: a successful create_blas returns the pre-call list length as
the handle and appends exactly one BLAS. -/
theorem create_blas_shape (st : AccelState) (dev : AccelOracle)
    (v : List Vec3) (idx : List Nat) (st1 : AccelState) (h : Nat)
    (effs : List AEffect)
    (hc : st.create_blas dev v idx = .ok (st1, h, effs)) :
    h = st.blas_list.length ∧ ∃ b, st1.blas_list = st.blas_list ++ [b] := by
  rw [AccelState.create_blas] at hc
  rcases hi : st.create_blas_internal dev v idx with e | ⟨st2, blas, e2⟩
  · rw [hi] at hc
    exact absurd hc (by simp)
  · rw [hi] at hc
    simp only [Except.ok.injEq, Prod.mk.injEq] at hc
    obtain ⟨h1, h2, -⟩ := hc
    subst h1
    exact ⟨h2.symm, ⟨blas, rfl⟩⟩

/-- Helper: build_tlas never changes the BLAS list. -/
theorem build_tlas_blas_list (st : AccelState) (dev : AccelOracle)
    (instances : List Instance) (st1 : AccelState) (effs : List AEffect)
    (h : st.build_tlas dev instances = .ok (st1, effs)) :
    st1.blas_list = st.blas_list := by
  rw [AccelState.build_tlas] at h
  by_cases hemp : instances.isEmpty
  · rw [if_pos hemp] at h
    simp only [Except.ok.injEq, Prod.mk.injEq] at h
    rw [← h.1]
  · rw [if_neg hemp] at h
    dsimp only at h
    by_cases ht : st.tlas.handle ≠ 0
    · rw [if_pos ht] at h
      by_cases hok : dev.createOk
      · rw [if_pos hok] at h
        simp only [Except.ok.injEq, Prod.mk.injEq] at h
        rw [← h.1]
        rfl
      · rw [if_neg hok] at h
        exact absurd h (by simp)
    · rw [if_neg ht] at h
      by_cases hok : dev.createOk
      · rw [if_pos hok] at h
        simp only [Except.ok.injEq, Prod.mk.injEq] at h
        rw [← h.1]
        rfl
      · rw [if_neg hok] at h
        exact absurd h (by simp)

/-- Helper: a BLAS stored at index j survives any successful operation
sequence unchanged. -/
theorem runOps_preserves_blas (ops : List MgrOp) (st st1 : AccelState)
    (h : st.runOps ops = .ok st1) (j : Nat) (b : BLAS)
    (hj : st.blas_list[j]? = some b) : st1.blas_list[j]? = some b := by
  induction ops generalizing st with
  | nil =>
    simp only [AccelState.runOps, Except.ok.injEq] at h
    rw [← h]
    exact hj
  | cons op rest ih =>
    have hjlt : j < st.blas_list.length := by
      by_contra hge
      rw [List.getElem?_eq_none (Nat.le_of_not_lt hge)] at hj
      exact Option.noConfusion hj
    rw [AccelState.runOps.eq_def] at h
    dsimp only at h
    cases op with
    | createBlas dev v i =>
      dsimp only at h
      rcases hc : st.create_blas dev v i with e | ⟨st2, hdl, e2⟩
      · rw [hc] at h
        exact Except.noConfusion h
      · rw [hc] at h
        obtain ⟨-, bnew, hap⟩ := create_blas_shape st dev v i st2 hdl e2 hc
        refine ih st2 h ?_
        rw [hap, List.getElem?_append_left hjlt]
        exact hj
    | createCube dev =>
      dsimp only at h
      rw [AccelState.create_cube_blas] at h
      rcases hc : st.create_blas dev cubeVertices cubeIndices
        with e | ⟨st2, hdl, e2⟩
      · rw [hc] at h
        exact Except.noConfusion h
      · rw [hc] at h
        obtain ⟨-, bnew, hap⟩ :=
          create_blas_shape st dev cubeVertices cubeIndices st2 hdl e2 hc
        refine ih st2 h ?_
        rw [hap, List.getElem?_append_left hjlt]
        exact hj
    | createLetterA dev a c s =>
      dsimp only at h
      rw [AccelState.create_letter_a_blas] at h
      rcases hc : st.create_blas dev (letterAGeometry a c s).1
          (letterAGeometry a c s).2 with e | ⟨st2, hdl, e2⟩
      · rw [hc] at h
        exact Except.noConfusion h
      · rw [hc] at h
        obtain ⟨-, bnew, hap⟩ := create_blas_shape st dev _ _ st2 hdl e2 hc
        refine ih st2 h ?_
        rw [hap, List.getElem?_append_left hjlt]
        exact hj
    | buildTlas dev instances =>
      dsimp only at h
      rcases hc : st.build_tlas dev instances with e | ⟨st2, e2⟩
      · rw [hc] at h
        exact Except.noConfusion h
      · rw [hc] at h
        refine ih st2 h ?_
        rw [build_tlas_blas_list st dev instances st2 e2 hc]
        exact hj

/-- C10: create_blas returns the number of BLAS created so far as the
new handle and appends exactly one entry, so handles are the consecutive
integers 0, 1, 2, ... in creation order; create_cube_blas and
create_letter_a_blas delegate to create_blas; build_tlas never touches
the BLAS list; and a previously returned handle keeps designating the
same BLAS across any successful operation sequence. -/
theorem blas_handles_consecutive_and_stable (st : AccelState)
    (dev : AccelOracle) (v : List Vec3) (idx : List Nat)
    (instances : List Instance) (atan2F : ℚ → ℚ → ℚ) (cosF sinF : ℚ → ℚ)
    (ops : List MgrOp) :
    (∀ st1 h effs, st.create_blas dev v idx = .ok (st1, h, effs) →
      h = st.blas_list.length ∧
      st1.blas_list.length = st.blas_list.length + 1 ∧
      ∃ b, st1.blas_list = st.blas_list ++ [b]) ∧
    st.create_cube_blas dev = st.create_blas dev cubeVertices cubeIndices ∧
    st.create_letter_a_blas dev atan2F cosF sinF =
      st.create_blas dev (letterAGeometry atan2F cosF sinF).1
        (letterAGeometry atan2F cosF sinF).2 ∧
    (∀ st1 effs, st.build_tlas dev instances = .ok (st1, effs) →
      st1.blas_list = st.blas_list) ∧
    (∀ st1, st.runOps ops = .ok st1 →
      ∀ (j : Nat) (b : BLAS), st.blas_list[j]? = some b →
        st1.blas_list[j]? = some b) := by
  refine ⟨?_, rfl, rfl,
    fun st1 effs h => build_tlas_blas_list st dev instances st1 effs h,
    fun st1 h j b hj => runOps_preserves_blas ops st st1 h j b hj⟩
  intro st1 h effs hc
  obtain ⟨hh, bnew, hap⟩ := create_blas_shape st dev v idx st1 h effs hc
  refine ⟨hh, ?_, ⟨bnew, hap⟩⟩
  rw [hap]
  simp

/-- C10 witness: with one stored BLAS, the empty operation sequence
keeps handle 0 designating it. -/
theorem blas_handles_consecutive_and_stable_witness :
    accW.blas_list[0]? =
      some { handle := 5, buffer := Buffer.null, device_address := 7 } :=
  (blas_handles_consecutive_and_stable accW devW [] [] []
    (fun _ _ => 0) (fun _ => 1) (fun _ => 0) []).2.2.2.2 accW rfl 0
    { handle := 5, buffer := Buffer.null, device_address := 7 } rfl

end AsciiDungeon
